import Mathlib

/-!
Shallow embedding of the visibility-manager shim of the history service
(`visibilityManagerImpl`) together with a spec-level model of the
signal-with-start operation of the `Engine` interface (the source holds only
the generated mock of that interface).

Modelling conventions:
- Go `time.Time` values are modelled by their `UnixNano` value, an `Int`
  (the code only ever reads `UnixNano()` and compares it with `0`).
- Go pointers that may be nil are modelled as `Option`.
- The external payload serializer (`SerializeVisibilityMemo`),
  memo deserializer (`DeserializeVisibilityMemo`) and `json.Marshal` are
  function parameters; a Go call returning a pair `(value, err)` is modelled
  as a Lean pair of `Option`s (or an `Except` when the value is unused on
  error, as `json.Marshal`'s result is in `getSearchAttributes`).
- The visibility store (`VisibilityStore`) is a function parameter returning
  the Go result pair.
- `convertVisibilityWorkflowExecutionInfo` receives its record through a
  pointer and writes to it, so its embedding returns the post-call contents
  of the record alongside the converted response.
- Go `map[string]T` fields are association lists carrying the iteration
  order of the corresponding loop.
-/

namespace Temporal

/-- Byte strings, the content of `[]byte`. -/
abbrev Bytes := List Nat

/-- The `error` values of the Go code, kept abstract as their message. -/
abbrev Err := String

/-- `serialization.DataBlob`: an encoding name and the encoded bytes. -/
structure DataBlob where
  Encoding : String
  Data : Bytes
  deriving DecidableEq

/-- The zero-value blob `&serialization.DataBlob{}` built by `serializeMemo`. -/
def DataBlob.empty : DataBlob := { Encoding := "", Data := [] }

/-- `commonproto.Memo`: the deserialized visibility memo. -/
structure Memo where
  Fields : List (String × Bytes)
  deriving DecidableEq

/-- `commonproto.WorkflowExecution`. -/
structure WorkflowExecution where
  WorkflowId : String
  RunId : String
  deriving DecidableEq

/-- `commonproto.WorkflowType`. -/
structure WorkflowType where
  Name : String
  deriving DecidableEq

/-- `commonproto.SearchAttributes`: JSON-encoded indexed fields. -/
structure SearchAttributes where
  IndexedFields : List (String × Bytes)
  deriving DecidableEq

/-- `commonproto.WorkflowExecutionInfo`, the public shape of one visibility
record.  `StartTime` and `CloseTime` are `*types.Int64Value` in Go, hence
`Option Int`; `Type'` stands for the Go field `Type` (a Lean keyword). -/
structure WorkflowExecutionInfo where
  Execution : WorkflowExecution
  Type' : WorkflowType
  StartTime : Option Int
  ExecutionTime : Int
  Memo : Option Memo
  SearchAttributes : Option SearchAttributes
  CloseTime : Option Int
  CloseStatus : Int
  HistoryLength : Int
  deriving DecidableEq

/-- `persistence.VisibilityWorkflowExecutionInfo`, the internal visibility
record, with the fields the shim reads.  `Value` is the element type of the
`map[string]interface{}` search-attribute map; `Status` is the
`*enums.WorkflowExecutionCloseStatus` pointer. -/
structure VisibilityWorkflowExecutionInfo (Value : Type) where
  WorkflowID : String
  RunID : String
  TypeName : String
  StartTime : Int
  ExecutionTime : Int
  Memo : Option DataBlob
  SearchAttributes : List (String × Value)
  Status : Option Int
  CloseTime : Int
  HistoryLength : Int
  deriving DecidableEq

/-- `VisibilityEncoding = common.EncodingTypeThriftRW`, the fixed encoding
passed to the memo serializer. -/
def VisibilityEncoding : String := "thriftrw"

/-- The loop of `getSearchAttributes`: `valBytes, err = json.Marshal(val)` in
each iteration overwrites `err` (also back to nil on success); a value that
fails to marshal is skipped (`continue`), a value that marshals is appended to
`indexedFields`. -/
def getSAloop {Value : Type} (jsonMarshal : Value → Except Err Bytes) :
    List (String × Value) → List (String × Bytes) → Option Err →
      List (String × Bytes) × Option Err
  | [], indexedFields, err => (indexedFields, err)
  | (k, val) :: rest, indexedFields, _ =>
    match jsonMarshal val with
    | Except.error e => getSAloop jsonMarshal rest indexedFields (some e)
    | Except.ok valBytes =>
      getSAloop jsonMarshal rest (indexedFields ++ [(k, valBytes)]) none

/-- `visibilityManagerImpl.getSearchAttributes`: marshals every attribute
value; after the loop, if the error of the last `json.Marshal` call is
non-nil the whole call returns `(nil, err)`, otherwise the collected
`IndexedFields`. -/
def getSearchAttributes {Value : Type} (jsonMarshal : Value → Except Err Bytes)
    (attr : List (String × Value)) : Except Err SearchAttributes :=
  match getSAloop jsonMarshal attr [] none with
  | (_, some e) => Except.error e
  | (indexedFields, none) => Except.ok { IndexedFields := indexedFields }

/-- `visibilityManagerImpl.convertVisibilityWorkflowExecutionInfo`.  The Go
function takes `execution *VisibilityWorkflowExecutionInfo` and assigns
`execution.ExecutionTime = execution.StartTime` through that pointer when
`execution.ExecutionTime.UnixNano() == 0`; the first component of the result
is the post-call contents of the pointed-to record.  Memo deserialization and
search-attribute conversion errors are only logged: the memo pointer returned
by the deserializer and a nil `SearchAttributes` (on error) are set into the
response as they are.  The close-only fields are set only when
`execution.Status != nil`; otherwise they keep the Go zero values of the
response struct literal. -/
def convertVisibilityWorkflowExecutionInfo {Value : Type}
    (deserializeVisibilityMemo : Option DataBlob → Option Memo × Option Err)
    (jsonMarshal : Value → Except Err Bytes)
    (execution : VisibilityWorkflowExecutionInfo Value) :
    VisibilityWorkflowExecutionInfo Value × WorkflowExecutionInfo :=
  let execution :=
    if execution.ExecutionTime = 0 then
      { execution with ExecutionTime := execution.StartTime }
    else execution
  let memo := (deserializeVisibilityMemo execution.Memo).1
  let searchAttributes :=
    match getSearchAttributes jsonMarshal execution.SearchAttributes with
    | Except.error _ => none
    | Except.ok sa => some sa
  let convertedExecution : WorkflowExecutionInfo :=
    { Execution := { WorkflowId := execution.WorkflowID, RunId := execution.RunID }
      Type' := { Name := execution.TypeName }
      StartTime := some execution.StartTime
      ExecutionTime := execution.ExecutionTime
      Memo := memo
      SearchAttributes := searchAttributes
      CloseTime := none
      CloseStatus := 0
      HistoryLength := 0 }
  let convertedExecution :=
    match execution.Status with
    | some closeStatus =>
      { convertedExecution with
          CloseTime := some execution.CloseTime
          CloseStatus := closeStatus
          HistoryLength := execution.HistoryLength }
    | none => convertedExecution
  (execution, convertedExecution)

/-- `persistence.InternalListWorkflowExecutionsResponse`. -/
structure InternalListWorkflowExecutionsResponse (Value : Type) where
  Executions : List (VisibilityWorkflowExecutionInfo Value)
  NextPageToken : Bytes
  deriving DecidableEq

/-- `persistence.ListWorkflowExecutionsResponse`. -/
structure ListWorkflowExecutionsResponse where
  Executions : List WorkflowExecutionInfo
  NextPageToken : Bytes
  deriving DecidableEq

/-- `persistence.ListWorkflowExecutionsRequest` (passed through unchanged). -/
structure ListWorkflowExecutionsRequest where
  DomainUUID : String
  Domain : String
  EarliestStartTime : Int
  LatestStartTime : Int
  PageSize : Int
  NextPageToken : Bytes
  deriving DecidableEq

/-- `persistence.ListWorkflowExecutionsRequestV2` (passed through unchanged). -/
structure ListWorkflowExecutionsRequestV2 where
  DomainUUID : String
  Domain : String
  PageSize : Int
  NextPageToken : Bytes
  Query : String
  deriving DecidableEq

/-- `persistence.GetClosedWorkflowExecutionRequest` (passed through unchanged). -/
structure GetClosedWorkflowExecutionRequest where
  DomainUUID : String
  Domain : String
  Execution : WorkflowExecution
  deriving DecidableEq

/-- `persistence.InternalGetClosedWorkflowExecutionResponse`. -/
structure InternalGetClosedWorkflowExecutionResponse (Value : Type) where
  Execution : VisibilityWorkflowExecutionInfo Value
  deriving DecidableEq

/-- `persistence.GetClosedWorkflowExecutionResponse`. -/
structure GetClosedWorkflowExecutionResponse where
  Execution : WorkflowExecutionInfo
  deriving DecidableEq

/-- `visibilityManagerImpl.convertInternalListResponse`: nil in, nil out;
otherwise one converted entry per internal entry (in order) and the
`NextPageToken` copied over. -/
def convertInternalListResponse {Value : Type}
    (deserializeVisibilityMemo : Option DataBlob → Option Memo × Option Err)
    (jsonMarshal : Value → Except Err Bytes) :
    Option (InternalListWorkflowExecutionsResponse Value) →
      Option ListWorkflowExecutionsResponse
  | none => none
  | some internalResp =>
    some
      { Executions := internalResp.Executions.map fun execution =>
          (convertVisibilityWorkflowExecutionInfo deserializeVisibilityMemo
            jsonMarshal execution).2
        NextPageToken := internalResp.NextPageToken }

/-- `visibilityManagerImpl.convertInternalGetResponse`. -/
def convertInternalGetResponse {Value : Type}
    (deserializeVisibilityMemo : Option DataBlob → Option Memo × Option Err)
    (jsonMarshal : Value → Except Err Bytes) :
    Option (InternalGetClosedWorkflowExecutionResponse Value) →
      Option GetClosedWorkflowExecutionResponse
  | none => none
  | some internalResp =>
    some
      { Execution := (convertVisibilityWorkflowExecutionInfo
          deserializeVisibilityMemo jsonMarshal internalResp.Execution).2 }

/-- `visibilityManagerImpl.ListOpenWorkflowExecutions`: forwards the request
to the store; a store error is returned as `(nil, err)`, otherwise the
converted response with a nil error. -/
def ListOpenWorkflowExecutions {Value : Type}
    (deserializeVisibilityMemo : Option DataBlob → Option Memo × Option Err)
    (jsonMarshal : Value → Except Err Bytes)
    (store : ListWorkflowExecutionsRequest →
      Option (InternalListWorkflowExecutionsResponse Value) × Option Err)
    (request : ListWorkflowExecutionsRequest) :
    Option ListWorkflowExecutionsResponse × Option Err :=
  match store request with
  | (_, some err) => (none, some err)
  | (internalResp, none) =>
    (convertInternalListResponse deserializeVisibilityMemo jsonMarshal
      internalResp, none)

/-- `visibilityManagerImpl.ScanWorkflowExecutions`: same shape as the list
operations, over the V2 request. -/
def ScanWorkflowExecutions {Value : Type}
    (deserializeVisibilityMemo : Option DataBlob → Option Memo × Option Err)
    (jsonMarshal : Value → Except Err Bytes)
    (store : ListWorkflowExecutionsRequestV2 →
      Option (InternalListWorkflowExecutionsResponse Value) × Option Err)
    (request : ListWorkflowExecutionsRequestV2) :
    Option ListWorkflowExecutionsResponse × Option Err :=
  match store request with
  | (_, some err) => (none, some err)
  | (internalResp, none) =>
    (convertInternalListResponse deserializeVisibilityMemo jsonMarshal
      internalResp, none)

/-- `visibilityManagerImpl.GetClosedWorkflowExecution`. -/
def GetClosedWorkflowExecution {Value : Type}
    (deserializeVisibilityMemo : Option DataBlob → Option Memo × Option Err)
    (jsonMarshal : Value → Except Err Bytes)
    (store : GetClosedWorkflowExecutionRequest →
      Option (InternalGetClosedWorkflowExecutionResponse Value) × Option Err)
    (request : GetClosedWorkflowExecutionRequest) :
    Option GetClosedWorkflowExecutionResponse × Option Err :=
  match store request with
  | (_, some err) => (none, some err)
  | (internalResp, none) =>
    (convertInternalGetResponse deserializeVisibilityMemo jsonMarshal
      internalResp, none)

/-- `visibilityManagerImpl.serializeMemo`: serializes the visibility memo with
the fixed `VisibilityEncoding`; a serialization error is only logged; a nil
blob (the serializer's conventional result on failure, and its result for some
nil memos) is replaced by the zero-value blob `&serialization.DataBlob{}`, so
the returned pointer is never nil. -/
def serializeMemo
    (serializeVisibilityMemo : Option Memo → String → Option DataBlob × Option Err)
    (visibilityMemo : Option Memo) (domainID wID rID : String) : Option DataBlob :=
  let result := serializeVisibilityMemo visibilityMemo VisibilityEncoding
  match result.1 with
  | none => some DataBlob.empty
  | some memo => some memo

/-- `persistence.RecordWorkflowExecutionStartedRequest`. -/
structure RecordWorkflowExecutionStartedRequest where
  DomainUUID : String
  Execution : WorkflowExecution
  WorkflowTypeName : String
  StartTimestamp : Int
  ExecutionTimestamp : Int
  WorkflowTimeout : Int
  TaskID : Int
  Memo : Option Memo
  SearchAttributes : List (String × Bytes)
  deriving DecidableEq

/-- `persistence.InternalRecordWorkflowExecutionStartedRequest`. -/
structure InternalRecordWorkflowExecutionStartedRequest where
  DomainUUID : String
  WorkflowID : String
  RunID : String
  WorkflowTypeName : String
  StartTimestamp : Int
  ExecutionTimestamp : Int
  WorkflowTimeout : Int
  TaskID : Int
  Memo : Option DataBlob
  SearchAttributes : List (String × Bytes)
  deriving DecidableEq

/-- `persistence.RecordWorkflowExecutionClosedRequest`. -/
structure RecordWorkflowExecutionClosedRequest where
  DomainUUID : String
  Execution : WorkflowExecution
  WorkflowTypeName : String
  StartTimestamp : Int
  ExecutionTimestamp : Int
  TaskID : Int
  Memo : Option Memo
  SearchAttributes : List (String × Bytes)
  CloseTimestamp : Int
  Status : Int
  HistoryLength : Int
  RetentionSeconds : Int
  deriving DecidableEq

/-- `persistence.InternalRecordWorkflowExecutionClosedRequest`. -/
structure InternalRecordWorkflowExecutionClosedRequest where
  DomainUUID : String
  WorkflowID : String
  RunID : String
  WorkflowTypeName : String
  StartTimestamp : Int
  ExecutionTimestamp : Int
  TaskID : Int
  Memo : Option DataBlob
  SearchAttributes : List (String × Bytes)
  CloseTimestamp : Int
  Status : Int
  HistoryLength : Int
  RetentionSeconds : Int
  deriving DecidableEq

/-- `persistence.UpsertWorkflowExecutionRequest`. -/
structure UpsertWorkflowExecutionRequest where
  DomainUUID : String
  Execution : WorkflowExecution
  WorkflowTypeName : String
  StartTimestamp : Int
  ExecutionTimestamp : Int
  TaskID : Int
  Memo : Option Memo
  SearchAttributes : List (String × Bytes)
  deriving DecidableEq

/-- `persistence.InternalUpsertWorkflowExecutionRequest`. -/
structure InternalUpsertWorkflowExecutionRequest where
  DomainUUID : String
  WorkflowID : String
  RunID : String
  WorkflowTypeName : String
  StartTimestamp : Int
  ExecutionTimestamp : Int
  TaskID : Int
  Memo : Option DataBlob
  SearchAttributes : List (String × Bytes)
  deriving DecidableEq

/-- `visibilityManagerImpl.RecordWorkflowExecutionStarted`: builds the
internal request field by field (the memo through `serializeMemo`) and
returns exactly the store's result. -/
def RecordWorkflowExecutionStarted
    (serializeVisibilityMemo : Option Memo → String → Option DataBlob × Option Err)
    (store : InternalRecordWorkflowExecutionStartedRequest → Option Err)
    (request : RecordWorkflowExecutionStartedRequest) : Option Err :=
  store
    { DomainUUID := request.DomainUUID
      WorkflowID := request.Execution.WorkflowId
      RunID := request.Execution.RunId
      WorkflowTypeName := request.WorkflowTypeName
      StartTimestamp := request.StartTimestamp
      ExecutionTimestamp := request.ExecutionTimestamp
      WorkflowTimeout := request.WorkflowTimeout
      TaskID := request.TaskID
      Memo := serializeMemo serializeVisibilityMemo request.Memo request.DomainUUID
        request.Execution.WorkflowId request.Execution.RunId
      SearchAttributes := request.SearchAttributes }

/-- `visibilityManagerImpl.RecordWorkflowExecutionClosed`. -/
def RecordWorkflowExecutionClosed
    (serializeVisibilityMemo : Option Memo → String → Option DataBlob × Option Err)
    (store : InternalRecordWorkflowExecutionClosedRequest → Option Err)
    (request : RecordWorkflowExecutionClosedRequest) : Option Err :=
  store
    { DomainUUID := request.DomainUUID
      WorkflowID := request.Execution.WorkflowId
      RunID := request.Execution.RunId
      WorkflowTypeName := request.WorkflowTypeName
      StartTimestamp := request.StartTimestamp
      ExecutionTimestamp := request.ExecutionTimestamp
      TaskID := request.TaskID
      Memo := serializeMemo serializeVisibilityMemo request.Memo request.DomainUUID
        request.Execution.WorkflowId request.Execution.RunId
      SearchAttributes := request.SearchAttributes
      CloseTimestamp := request.CloseTimestamp
      Status := request.Status
      HistoryLength := request.HistoryLength
      RetentionSeconds := request.RetentionSeconds }

/-- `visibilityManagerImpl.UpsertWorkflowExecution`. -/
def UpsertWorkflowExecution
    (serializeVisibilityMemo : Option Memo → String → Option DataBlob × Option Err)
    (store : InternalUpsertWorkflowExecutionRequest → Option Err)
    (request : UpsertWorkflowExecutionRequest) : Option Err :=
  store
    { DomainUUID := request.DomainUUID
      WorkflowID := request.Execution.WorkflowId
      RunID := request.Execution.RunId
      WorkflowTypeName := request.WorkflowTypeName
      StartTimestamp := request.StartTimestamp
      ExecutionTimestamp := request.ExecutionTimestamp
      TaskID := request.TaskID
      Memo := serializeMemo serializeVisibilityMemo request.Memo request.DomainUUID
        request.Execution.WorkflowId request.Execution.RunId
      SearchAttributes := request.SearchAttributes }

/-- Modelled from the spec: the engine implementation of
`SignalWithStartWorkflowExecution` is not part of this source fragment — the
history file declares only the generated mock of the `Engine` interface.  Per
the spec (section 4.2: the with-start variant "atomically starts a new run if
the target does not exist, guaranteeing the signal is never lost even if start
and signal race"), the operation is one atomic step on the runs of the target
workflow id.  A request carries the signal to append and the fresh run id the
call would assign if it creates the run. -/
structure SignalWithStartRequest where
  SignalName : String
  NewRunId : String
  deriving DecidableEq

/-- Modelled from the spec: one run of the target workflow id, with the signal
events recorded in its history (section 3: history events are append-only). -/
structure WorkflowRun where
  RunId : String
  SignalHistory : List String
  deriving DecidableEq

/-- Modelled from the spec: the atomic signal-with-start step.  If no run of
the target workflow exists, it starts one and records the signal in the new
run's history in the same step; otherwise it appends the signal to the current
run.  It returns the updated runs and the run id reported to the caller. -/
def SignalWithStartWorkflowExecution (request : SignalWithStartRequest)
    (runs : List WorkflowRun) : List WorkflowRun × String :=
  match runs with
  | [] =>
    ([{ RunId := request.NewRunId, SignalHistory := [request.SignalName] }],
      request.NewRunId)
  | run :: rest =>
    ({ run with SignalHistory := run.SignalHistory ++ [request.SignalName] } :: rest,
      run.RunId)

/-- Spec-side shape of a converted response entry with the optional,
degradable fields (visibility memo and search attributes) removed: what claim
C2 calls the record with the affected optional field omitted. -/
def dropOptionalFields (info : WorkflowExecutionInfo) : WorkflowExecutionInfo :=
  { info with Memo := none, SearchAttributes := none }

/-- `dropOptionalFields` applied to every entry of a list response. -/
def dropOptionalInList (resp : ListWorkflowExecutionsResponse) :
    ListWorkflowExecutionsResponse :=
  { resp with Executions := resp.Executions.map dropOptionalFields }

/-- `dropOptionalFields` applied to the execution of a get response. -/
def dropOptionalInGet (resp : GetClosedWorkflowExecutionResponse) :
    GetClosedWorkflowExecutionResponse :=
  { resp with Execution := dropOptionalFields resp.Execution }

/-- Spec-side description of a successful list result (claim C5's words): one
converted entry per internal entry, in the same order, with the
`NextPageToken` of the internal response unchanged. -/
def specPerEntryListResponse {Value : Type}
    (deserializeVisibilityMemo : Option DataBlob → Option Memo × Option Err)
    (jsonMarshal : Value → Except Err Bytes)
    (internalResp : InternalListWorkflowExecutionsResponse Value) :
    ListWorkflowExecutionsResponse :=
  { Executions := internalResp.Executions.map fun execution =>
      (convertVisibilityWorkflowExecutionInfo deserializeVisibilityMemo
        jsonMarshal execution).2
    NextPageToken := internalResp.NextPageToken }

/-- Spec-side internal started request of claim C4: every field taken from the
caller's request, the memo replaced by the empty blob. -/
def startedReqWithEmptyMemo (request : RecordWorkflowExecutionStartedRequest) :
    InternalRecordWorkflowExecutionStartedRequest :=
  { DomainUUID := request.DomainUUID
    WorkflowID := request.Execution.WorkflowId
    RunID := request.Execution.RunId
    WorkflowTypeName := request.WorkflowTypeName
    StartTimestamp := request.StartTimestamp
    ExecutionTimestamp := request.ExecutionTimestamp
    WorkflowTimeout := request.WorkflowTimeout
    TaskID := request.TaskID
    Memo := some DataBlob.empty
    SearchAttributes := request.SearchAttributes }

/-- Spec-side internal closed request of claim C4, with the empty memo blob. -/
def closedReqWithEmptyMemo (request : RecordWorkflowExecutionClosedRequest) :
    InternalRecordWorkflowExecutionClosedRequest :=
  { DomainUUID := request.DomainUUID
    WorkflowID := request.Execution.WorkflowId
    RunID := request.Execution.RunId
    WorkflowTypeName := request.WorkflowTypeName
    StartTimestamp := request.StartTimestamp
    ExecutionTimestamp := request.ExecutionTimestamp
    TaskID := request.TaskID
    Memo := some DataBlob.empty
    SearchAttributes := request.SearchAttributes
    CloseTimestamp := request.CloseTimestamp
    Status := request.Status
    HistoryLength := request.HistoryLength
    RetentionSeconds := request.RetentionSeconds }

/-- Spec-side internal upsert request of claim C4, with the empty memo blob. -/
def upsertReqWithEmptyMemo (request : UpsertWorkflowExecutionRequest) :
    InternalUpsertWorkflowExecutionRequest :=
  { DomainUUID := request.DomainUUID
    WorkflowID := request.Execution.WorkflowId
    RunID := request.Execution.RunId
    WorkflowTypeName := request.WorkflowTypeName
    StartTimestamp := request.StartTimestamp
    ExecutionTimestamp := request.ExecutionTimestamp
    TaskID := request.TaskID
    Memo := some DataBlob.empty
    SearchAttributes := request.SearchAttributes }

/-- A memo deserializer that fails (conventionally: nil memo, non-nil error). -/
def desFail : Option DataBlob → Option Memo × Option Err :=
  fun _ => (none, some ("memo-decode-error"))

/-- A `json.Marshal` stand-in that fails on every value. -/
def marshalFail : String → Except Err Bytes :=
  fun _ => Except.error ("marshal-error")

/-- A concrete open visibility record whose `ExecutionTime` is the zero
timestamp while its `StartTime` is not. -/
def visRecordZeroExecTime : VisibilityWorkflowExecutionInfo String :=
  { WorkflowID := "wf-1"
    RunID := "run-1"
    TypeName := "type-1"
    StartTime := 5
    ExecutionTime := 0
    Memo := none
    SearchAttributes := []
    Status := none
    CloseTime := 0
    HistoryLength := 0 }

/-- A memo serializer that fails in the conventional way: nil blob with a
non-nil error. -/
def serializeFail : Option Memo → String → Option DataBlob × Option Err :=
  fun _ _ => (none, some ("encode-error"))

/-- A memo serializer that reports an error and still yields a non-nil,
non-empty blob. -/
def serializeErrWithBlob : Option Memo → String → Option DataBlob × Option Err :=
  fun _ _ => (some { Encoding := "json", Data := [1] }, some ("encode-error"))

/-- A concrete started request carrying a memo. -/
def startedReq0 : RecordWorkflowExecutionStartedRequest :=
  { DomainUUID := "domain-1"
    Execution := { WorkflowId := "wf-1", RunId := "run-1" }
    WorkflowTypeName := "type-1"
    StartTimestamp := 10
    ExecutionTimestamp := 11
    WorkflowTimeout := 60
    TaskID := 7
    Memo := some { Fields := [("note", [1, 2])] }
    SearchAttributes := [("CustomField", [3])] }

/-- A concrete closed request carrying a memo. -/
def closedReq0 : RecordWorkflowExecutionClosedRequest :=
  { DomainUUID := "domain-1"
    Execution := { WorkflowId := "wf-1", RunId := "run-1" }
    WorkflowTypeName := "type-1"
    StartTimestamp := 10
    ExecutionTimestamp := 11
    TaskID := 8
    Memo := some { Fields := [("note", [1, 2])] }
    SearchAttributes := [("CustomField", [3])]
    CloseTimestamp := 20
    Status := 1
    HistoryLength := 12
    RetentionSeconds := 86400 }

/-- A concrete upsert request carrying a memo. -/
def upsertReq0 : UpsertWorkflowExecutionRequest :=
  { DomainUUID := "domain-1"
    Execution := { WorkflowId := "wf-1", RunId := "run-1" }
    WorkflowTypeName := "type-1"
    StartTimestamp := 10
    ExecutionTimestamp := 11
    TaskID := 9
    Memo := some { Fields := [("note", [1, 2])] }
    SearchAttributes := [("CustomField", [3])] }

/-- A started store that accepts exactly the requests carrying the empty memo
blob. -/
def storeStarted0 : InternalRecordWorkflowExecutionStartedRequest → Option Err :=
  fun req => if req.Memo = some DataBlob.empty then none else some ("non-empty-memo")

/-- A closed store that accepts exactly the requests carrying the empty memo
blob. -/
def storeClosed0 : InternalRecordWorkflowExecutionClosedRequest → Option Err :=
  fun req => if req.Memo = some DataBlob.empty then none else some ("non-empty-memo")

/-- An upsert store that accepts exactly the requests carrying the empty memo
blob. -/
def storeUpsert0 : InternalUpsertWorkflowExecutionRequest → Option Err :=
  fun req => if req.Memo = some DataBlob.empty then none else some ("non-empty-memo")

/-- C1: the converted public response reports `ExecutionTime` equal to the
record's `StartTime` (as Unix nanoseconds) exactly when the record's
`ExecutionTime` is the zero timestamp, and equal to the record's own
`ExecutionTime` otherwise — for every deserializer, marshaller and record. -/
theorem executionTime_zero_substitution {Value : Type}
    (deserializeVisibilityMemo : Option DataBlob → Option Memo × Option Err)
    (jsonMarshal : Value → Except Err Bytes)
    (execution : VisibilityWorkflowExecutionInfo Value) :
    ((convertVisibilityWorkflowExecutionInfo deserializeVisibilityMemo jsonMarshal
        execution).2).ExecutionTime =
      if execution.ExecutionTime = 0 then execution.StartTime
      else execution.ExecutionTime := by
  unfold convertVisibilityWorkflowExecutionInfo
  by_cases h : execution.ExecutionTime = 0 <;>
    simp only [h, if_true, if_false, reduceIte] <;>
    cases execution.Status <;> rfl

/-- Serialization outcomes never change which response fields the conversion
produces outside the optional memo and search attributes: the converted entry
is the same, entry for entry, once those two optional fields are dropped. -/
theorem dropOptionalFields_convert {Value : Type}
    (des1 des2 : Option DataBlob → Option Memo × Option Err)
    (marshal1 marshal2 : Value → Except Err Bytes)
    (execution : VisibilityWorkflowExecutionInfo Value) :
    dropOptionalFields
        (convertVisibilityWorkflowExecutionInfo des1 marshal1 execution).2 =
      dropOptionalFields
        (convertVisibilityWorkflowExecutionInfo des2 marshal2 execution).2 := by
  unfold convertVisibilityWorkflowExecutionInfo dropOptionalFields
  by_cases h : execution.ExecutionTime = 0 <;>
    simp only [h, reduceIte] <;>
    cases execution.Status <;> rfl

/-- C2: for the list and get operations of the visibility manager, memo
deserialization or search-attribute serialization failures degrade only the
optional fields and never the call itself.  Stated for every pair of
serializer behaviours (`des1`/`marshal1` may fail where `des2`/`marshal2`
succeed): the error component of the call equals the store's error — so a
serialization failure never makes the list/get call return an error — and the
responses agree entry for entry, in number and order, once the two optional
fields (memo, search attributes) are dropped — so a record whose memo or
search-attribute value fails is still returned, with at most those optional
fields affected. -/
theorem serialization_failure_degrades_only_optional_fields {Value : Type}
    (des1 des2 : Option DataBlob → Option Memo × Option Err)
    (marshal1 marshal2 : Value → Except Err Bytes)
    (storeList : ListWorkflowExecutionsRequest →
      Option (InternalListWorkflowExecutionsResponse Value) × Option Err)
    (storeGet : GetClosedWorkflowExecutionRequest →
      Option (InternalGetClosedWorkflowExecutionResponse Value) × Option Err)
    (reqList : ListWorkflowExecutionsRequest)
    (reqGet : GetClosedWorkflowExecutionRequest) :
    (ListOpenWorkflowExecutions des1 marshal1 storeList reqList).2 =
        (storeList reqList).2 ∧
    (GetClosedWorkflowExecution des1 marshal1 storeGet reqGet).2 =
        (storeGet reqGet).2 ∧
    (ListOpenWorkflowExecutions des1 marshal1 storeList reqList).1.map
        dropOptionalInList =
      (ListOpenWorkflowExecutions des2 marshal2 storeList reqList).1.map
        dropOptionalInList ∧
    (GetClosedWorkflowExecution des1 marshal1 storeGet reqGet).1.map
        dropOptionalInGet =
      (GetClosedWorkflowExecution des2 marshal2 storeGet reqGet).1.map
        dropOptionalInGet := by
  refine ⟨?_, ?_, ?_, ?_⟩
  · unfold ListOpenWorkflowExecutions
    rcases h : storeList reqList with ⟨r, e⟩
    cases e <;> simp
  · unfold GetClosedWorkflowExecution
    rcases h : storeGet reqGet with ⟨r, e⟩
    cases e <;> simp
  · unfold ListOpenWorkflowExecutions
    rcases h : storeList reqList with ⟨r, e⟩
    cases e
    · cases r with
      | none => rfl
      | some rr =>
        have key :
            List.map dropOptionalFields (List.map (fun execution =>
              (convertVisibilityWorkflowExecutionInfo des1 marshal1 execution).2)
                rr.Executions) =
            List.map dropOptionalFields (List.map (fun execution =>
              (convertVisibilityWorkflowExecutionInfo des2 marshal2 execution).2)
                rr.Executions) := by
          rw [List.map_map, List.map_map]
          exact List.map_congr_left fun execution _ =>
            dropOptionalFields_convert des1 des2 marshal1 marshal2 execution
        exact congrArg
          (fun x => some (ListWorkflowExecutionsResponse.mk x rr.NextPageToken)) key
    · rfl
  · unfold GetClosedWorkflowExecution
    rcases h : storeGet reqGet with ⟨r, e⟩
    cases e
    · cases r with
      | none => rfl
      | some rr =>
        exact congrArg (fun x => some (GetClosedWorkflowExecutionResponse.mk x))
          (dropOptionalFields_convert des1 des2 marshal1 marshal2 rr.Execution)
    · rfl

/-- C5: for the list/scan operations, a store error is returned unchanged with
a nil response, and a store success is returned as exactly one converted entry
per internal entry, in the same order, with the internal `NextPageToken`
unchanged (`specPerEntryListResponse` states that response in the claim's
words; a nil internal response converts to a nil response). -/
theorem list_scan_pure_mapping {Value : Type}
    (deserializeVisibilityMemo : Option DataBlob → Option Memo × Option Err)
    (jsonMarshal : Value → Except Err Bytes)
    (storeList : ListWorkflowExecutionsRequest →
      Option (InternalListWorkflowExecutionsResponse Value) × Option Err)
    (storeScan : ListWorkflowExecutionsRequestV2 →
      Option (InternalListWorkflowExecutionsResponse Value) × Option Err)
    (reqList : ListWorkflowExecutionsRequest)
    (reqScan : ListWorkflowExecutionsRequestV2) :
    ListOpenWorkflowExecutions deserializeVisibilityMemo jsonMarshal storeList
        reqList =
      (match storeList reqList with
        | (_, some err) => (none, some err)
        | (internalResp, none) =>
          (internalResp.map
            (specPerEntryListResponse deserializeVisibilityMemo jsonMarshal),
            none)) ∧
    ScanWorkflowExecutions deserializeVisibilityMemo jsonMarshal storeScan
        reqScan =
      (match storeScan reqScan with
        | (_, some err) => (none, some err)
        | (internalResp, none) =>
          (internalResp.map
            (specPerEntryListResponse deserializeVisibilityMemo jsonMarshal),
            none)) := by
  constructor
  · unfold ListOpenWorkflowExecutions
    rcases h : storeList reqList with ⟨r, e⟩
    cases e <;> cases r <;> rfl
  · unfold ScanWorkflowExecutions
    rcases h : storeScan reqScan with ⟨r, e⟩
    cases e <;> cases r <;> rfl

/-- C7: `RecordWorkflowExecutionStarted` forwards to the store an internal
request carrying exactly the caller's `DomainUUID`, `WorkflowID`, `RunID`,
`WorkflowTypeName`, `StartTimestamp`, `ExecutionTimestamp`, `WorkflowTimeout`,
`TaskID` and `SearchAttributes`, and the operation's result is exactly the
store's result on that request. -/
theorem recordStarted_forwards_exact_fields
    (serializeVisibilityMemo : Option Memo → String → Option DataBlob × Option Err)
    (store : InternalRecordWorkflowExecutionStartedRequest → Option Err)
    (request : RecordWorkflowExecutionStartedRequest) :
    ∃ internalReq : InternalRecordWorkflowExecutionStartedRequest,
      RecordWorkflowExecutionStarted serializeVisibilityMemo store request =
          store internalReq ∧
      internalReq.DomainUUID = request.DomainUUID ∧
      internalReq.WorkflowID = request.Execution.WorkflowId ∧
      internalReq.RunID = request.Execution.RunId ∧
      internalReq.WorkflowTypeName = request.WorkflowTypeName ∧
      internalReq.StartTimestamp = request.StartTimestamp ∧
      internalReq.ExecutionTimestamp = request.ExecutionTimestamp ∧
      internalReq.WorkflowTimeout = request.WorkflowTimeout ∧
      internalReq.TaskID = request.TaskID ∧
      internalReq.SearchAttributes = request.SearchAttributes :=
  ⟨_, rfl, rfl, rfl, rfl, rfl, rfl, rfl, rfl, rfl, rfl⟩

/-- When the memo serializer fails in the conventional way (nil blob, non-nil
error), `serializeMemo` substitutes the empty blob. -/
theorem serializeMemo_on_failure
    (serializeVisibilityMemo : Option Memo → String → Option DataBlob × Option Err)
    (visibilityMemo : Option Memo) (domainID wID rID : String) (e : Err)
    (h : serializeVisibilityMemo visibilityMemo VisibilityEncoding = (none, some e)) :
    serializeMemo serializeVisibilityMemo visibilityMemo domainID wID rID =
      some DataBlob.empty := by
  unfold serializeMemo
  rw [h]

/-- C4: for each of `RecordWorkflowExecutionStarted`,
`RecordWorkflowExecutionClosed` and `UpsertWorkflowExecution`, when the memo
serializer fails (returning a nil blob with an error, which is only logged),
the request is still forwarded to the visibility store — with the empty memo
blob and every other field taken from the caller's request — and the
operation's result is exactly the store's result, so the memo failure never
makes the write fail on its own. -/
theorem memo_serialization_failure_still_forwards
    (serializeVisibilityMemo : Option Memo → String → Option DataBlob × Option Err)
    (storeS : InternalRecordWorkflowExecutionStartedRequest → Option Err)
    (storeC : InternalRecordWorkflowExecutionClosedRequest → Option Err)
    (storeU : InternalUpsertWorkflowExecutionRequest → Option Err)
    (requestS : RecordWorkflowExecutionStartedRequest)
    (requestC : RecordWorkflowExecutionClosedRequest)
    (requestU : UpsertWorkflowExecutionRequest)
    (eS eC eU : Err)
    (hS : serializeVisibilityMemo requestS.Memo VisibilityEncoding = (none, some eS))
    (hC : serializeVisibilityMemo requestC.Memo VisibilityEncoding = (none, some eC))
    (hU : serializeVisibilityMemo requestU.Memo VisibilityEncoding = (none, some eU)) :
    RecordWorkflowExecutionStarted serializeVisibilityMemo storeS requestS =
        storeS (startedReqWithEmptyMemo requestS) ∧
    RecordWorkflowExecutionClosed serializeVisibilityMemo storeC requestC =
        storeC (closedReqWithEmptyMemo requestC) ∧
    UpsertWorkflowExecution serializeVisibilityMemo storeU requestU =
        storeU (upsertReqWithEmptyMemo requestU) := by
  refine ⟨?_, ?_, ?_⟩
  · unfold RecordWorkflowExecutionStarted startedReqWithEmptyMemo
    rw [serializeMemo_on_failure serializeVisibilityMemo requestS.Memo _ _ _ eS hS]
  · unfold RecordWorkflowExecutionClosed closedReqWithEmptyMemo
    rw [serializeMemo_on_failure serializeVisibilityMemo requestC.Memo _ _ _ eC hC]
  · unfold UpsertWorkflowExecution upsertReqWithEmptyMemo
    rw [serializeMemo_on_failure serializeVisibilityMemo requestU.Memo _ _ _ eU hU]

/-- C4's witness: the concrete failing serializer and concrete requests, with
stores that accept exactly the empty memo blob. -/
theorem memo_serialization_failure_still_forwards_witness :
    RecordWorkflowExecutionStarted serializeFail storeStarted0 startedReq0 =
        storeStarted0 (startedReqWithEmptyMemo startedReq0) ∧
    RecordWorkflowExecutionClosed serializeFail storeClosed0 closedReq0 =
        storeClosed0 (closedReqWithEmptyMemo closedReq0) ∧
    UpsertWorkflowExecution serializeFail storeUpsert0 upsertReq0 =
        storeUpsert0 (upsertReqWithEmptyMemo upsertReq0) :=
  memo_serialization_failure_still_forwards serializeFail storeStarted0 storeClosed0
    storeUpsert0 startedReq0 closedReq0 upsertReq0 ("encode-error") ("encode-error")
    ("encode-error") rfl rfl rfl

/-- The loop of `getSearchAttributes` under all-successful marshalling:
every pair is kept, in order, and the running error stays nil. -/
theorem getSAloop_all_ok {Value : Type} (jsonMarshal : Value → Except Err Bytes)
    (enc : Value → Bytes) :
    ∀ (attr : List (String × Value)) (indexedFields : List (String × Bytes)),
      (∀ kv ∈ attr, jsonMarshal kv.2 = Except.ok (enc kv.2)) →
      getSAloop jsonMarshal attr indexedFields none =
        (indexedFields ++ attr.map (fun kv => (kv.1, enc kv.2)), none)
  | [], indexedFields, _ => by simp [getSAloop]
  | (k, val) :: rest, indexedFields, h => by
    have hhead : jsonMarshal val = Except.ok (enc val) := h (k, val) (by simp)
    have htail : ∀ kv ∈ rest, jsonMarshal kv.2 = Except.ok (enc kv.2) :=
      fun kv hkv => h kv (List.mem_cons_of_mem _ hkv)
    rw [getSAloop, hhead]
    dsimp only
    rw [getSAloop_all_ok jsonMarshal enc rest (indexedFields ++ [(k, enc val)]) htail]
    simp

/-- C8: when every value of the search-attribute map JSON-serializes
(`jsonMarshal` returns `enc` of the value on each of them),
`getSearchAttributes` returns no error and its `IndexedFields` carries exactly
the input keys, in iteration order, each mapped to the JSON encoding of its
value. -/
theorem getSearchAttributes_all_ok {Value : Type}
    (jsonMarshal : Value → Except Err Bytes) (enc : Value → Bytes)
    (attr : List (String × Value))
    (h : ∀ kv ∈ attr, jsonMarshal kv.2 = Except.ok (enc kv.2)) :
    getSearchAttributes jsonMarshal attr =
      Except.ok { IndexedFields := attr.map (fun kv => (kv.1, enc kv.2)) } := by
  unfold getSearchAttributes
  rw [getSAloop_all_ok jsonMarshal enc attr [] h]
  simp

/-- C8's witness: a one-entry map under a marshaller that encodes a string as
its length. -/
theorem getSearchAttributes_all_ok_witness :
    getSearchAttributes (fun s : String => Except.ok [s.length])
        [("CustomField", "abc")] =
      Except.ok { IndexedFields := [("CustomField", [3])] } :=
  getSearchAttributes_all_ok (fun s : String => Except.ok [s.length])
    (fun s : String => [s.length]) [("CustomField", "abc")] (fun _ _ => rfl)

/-- C10 (amended): `serializeMemo` is total and never returns a nil blob: for
every serializer outcome it returns the serializer's blob when that blob is
non-nil — even when an error is also reported — and substitutes the empty
blob exactly when the serializer's blob is nil (which covers the conventional
failure of a nil blob alongside the error); the error component never affects
the result. -/
theorem serializeMemo_total_never_nil
    (serializeVisibilityMemo : Option Memo → String → Option DataBlob × Option Err)
    (visibilityMemo : Option Memo) (domainID wID rID : String) :
    (serializeMemo serializeVisibilityMemo visibilityMemo domainID wID rID).isSome ∧
    serializeMemo serializeVisibilityMemo visibilityMemo domainID wID rID =
      some (((serializeVisibilityMemo visibilityMemo VisibilityEncoding).1).getD
        DataBlob.empty) := by
  unfold serializeMemo
  cases hm : (serializeVisibilityMemo visibilityMemo VisibilityEncoding).1 <;> simp [hm]

/-- C10's counterexample: a serializer that reports an error while yielding a
non-nil, non-empty blob; `serializeMemo` forwards that blob instead of
substituting the empty one, so the empty blob is not substituted "whenever the
serializer yields an error". -/
theorem serializeMemo_error_with_blob_counterexample :
    (serializeErrWithBlob none VisibilityEncoding).2.isSome ∧
    serializeMemo serializeErrWithBlob none ("domain-1") ("wf-1") ("run-1") ≠
      some DataBlob.empty := by
  constructor
  · rfl
  · decide

/-- C6 (amended): the conversion writes back through its record pointer
exactly when `ExecutionTime` is the zero timestamp, overwriting that one field
with `StartTime`; otherwise the record is left unchanged. -/
theorem convert_input_mutation_characterization {Value : Type}
    (deserializeVisibilityMemo : Option DataBlob → Option Memo × Option Err)
    (jsonMarshal : Value → Except Err Bytes)
    (execution : VisibilityWorkflowExecutionInfo Value) :
    (convertVisibilityWorkflowExecutionInfo deserializeVisibilityMemo jsonMarshal
        execution).1 =
      if execution.ExecutionTime = 0 then
        { execution with ExecutionTime := execution.StartTime }
      else execution := by
  unfold convertVisibilityWorkflowExecutionInfo
  by_cases h : execution.ExecutionTime = 0 <;>
    simp only [h, if_true, if_false, reduceIte] <;>
    cases execution.Status <;> rfl

/-- C6's counterexample: on a record with `ExecutionTime = 0` and
`StartTime = 5`, the conversion does not leave the input record unchanged —
its `ExecutionTime` field is overwritten. -/
theorem convert_mutates_input_counterexample :
    (convertVisibilityWorkflowExecutionInfo desFail marshalFail
        visRecordZeroExecTime).1 ≠ visRecordZeroExecTime := by
  decide

/-- C9: the close-only fields of the converted response are populated from
the record exactly when the record's `Status` is non-nil; an open record (nil
`Status`) converts with a nil `CloseTime`, the zero `CloseStatus` and a zero
`HistoryLength`. -/
theorem close_fields_iff_status {Value : Type}
    (deserializeVisibilityMemo : Option DataBlob → Option Memo × Option Err)
    (jsonMarshal : Value → Except Err Bytes)
    (execution : VisibilityWorkflowExecutionInfo Value) :
    ((convertVisibilityWorkflowExecutionInfo deserializeVisibilityMemo jsonMarshal
        execution).2).CloseTime =
        execution.Status.map (fun _ => execution.CloseTime) ∧
    ((convertVisibilityWorkflowExecutionInfo deserializeVisibilityMemo jsonMarshal
        execution).2).CloseStatus = execution.Status.getD 0 ∧
    ((convertVisibilityWorkflowExecutionInfo deserializeVisibilityMemo jsonMarshal
        execution).2).HistoryLength =
        (if execution.Status.isSome then execution.HistoryLength else 0) := by
  unfold convertVisibilityWorkflowExecutionInfo
  by_cases h : execution.ExecutionTime = 0 <;>
    simp only [h, if_true, if_false, reduceIte] <;>
    cases execution.Status <;> simp

/-- C3: two signal-with-start calls against a workflow with no existing run,
executed in either order (the operation is atomic, so any interleaving of the
two calls is one of the two orders; `first`/`second` range over both),
produce exactly one new run — created by the first call, no duplicate — whose
history holds both signal events in order, and the second caller is answered
with that same run's id. -/
theorem signalWithStart_race_single_run_both_signals
    (first second : SignalWithStartRequest) :
    (SignalWithStartWorkflowExecution second
        (SignalWithStartWorkflowExecution first []).1).1 =
      [{ RunId := first.NewRunId
         SignalHistory := [first.SignalName, second.SignalName] }] ∧
    (SignalWithStartWorkflowExecution second
        (SignalWithStartWorkflowExecution first []).1).1.length = 1 ∧
    (SignalWithStartWorkflowExecution second
        (SignalWithStartWorkflowExecution first []).1).2 = first.NewRunId := by
  refine ⟨rfl, rfl, rfl⟩

end Temporal
